import Mathlib

/-!
Shallow embedding of the post-room-backend request handlers
(src/controllers/userController.ts, src/controllers/blogController.ts,
the Prisma schema, and src/middleware/authMiddleware.ts).

Modelling conventions:
* The relational store is a `DB` record of lists, one per Prisma model that
  the verified handlers touch.  Prisma autoincrement ids are modelled by a
  single fresh-id counter `nextId` (per-table counters are abstracted into
  one counter; theorems that need id freshness state it as a hypothesis).
* Every handler is a pure function from its request inputs and the current
  `DB` to a pair of an HTTP result and the successor `DB`.  JavaScript
  `Date` values are `Nat` timestamps in milliseconds.
* External collaborators are injected as parameters: the bcrypt hash and
  compare functions, the nodemailer send outcome (`MailResult`), and the
  jsonwebtoken library (modelled by `jwtSign`/`jwtVerify`, where an ideal
  MAC signature is represented by the signing secret itself: a signature
  verifies exactly when the verifying secret equals the signing secret).
* A JSON response body is abstracted to the data the handler serialises
  (e.g. the id of the affected user); error responses keep the exact
  status code and message string of the source.
-/

namespace PostRoom

/-- HTTP outcome of a handler: a success with a payload, or an error
response with the source's status code and message. -/
inductive HResult (α : Type) where
  | ok (status : Nat) (val : α)
  | err (status : Nat) (msg : String)
deriving DecidableEq, Repr

/-- True exactly on the success constructor. -/
def resultIsOk {α : Type} : HResult α → Bool
  | HResult.ok _ _ => true
  | HResult.err _ _ => false

/-- Prisma enum AccountType. -/
inductive AccountType where
  | DEFAULT
  | GOOGLE
  | FACEBOOK
  | APPLE
deriving DecidableEq, Repr

/-- Prisma model User (fields used by the verified handlers). -/
structure User where
  id : Nat
  fullname : Option String := none
  username : Option String := none
  email : String
  isEmailVerified : Bool := false
  hashedPassword : Option String := none
  provider : AccountType := AccountType.DEFAULT
deriving DecidableEq, Repr

/-- Prisma model PasswordResetToken. -/
structure PasswordResetToken where
  id : Nat
  token : String
  resetAt : Option Nat := none
  userId : Nat
  createdAt : Nat
deriving DecidableEq, Repr

/-- Prisma model ActivateToken. -/
structure ActivateToken where
  id : Nat
  token : String
  activatedAt : Option Nat := none
  userId : Nat
  createdAt : Nat
deriving DecidableEq, Repr

/-- Prisma model AccountDeleteToken. -/
structure AccountDeleteToken where
  id : Nat
  token : String
  deleteAt : Option Nat := none
  userId : Nat
  createdAt : Nat
deriving DecidableEq, Repr

/-- Prisma model Follow: directed edge followed user `userId` ← `followerId`. -/
structure Follow where
  id : Nat
  userId : Nat
  followerId : Nat
deriving DecidableEq, Repr

/-- Prisma model Notification (`seen` defaults to false in the schema). -/
structure Notification where
  id : Nat
  userId : Nat
  blogId : Nat
  seen : Bool := false
  createdAt : Nat
deriving DecidableEq, Repr

/-- Prisma model Blog (fields used by the verified handlers). -/
structure Blog where
  id : Nat
  blogId : String
  title : String
  content : String
  imageUrl : Option String := none
  draft : Bool := true
  authorId : Nat
  createdAt : Nat := 0
deriving DecidableEq, Repr

/-- Prisma model Searches. -/
structure Search where
  id : Nat
  userId : Nat
  content : String
  createdAt : Nat
deriving DecidableEq, Repr

/-- The relational store, one list per Prisma table that the verified
handlers read or write, plus the fresh-id counter. -/
structure DB where
  users : List User
  passwordResetTokens : List PasswordResetToken
  activateTokens : List ActivateToken
  deleteTokens : List AccountDeleteToken
  follows : List Follow
  notifications : List Notification
  blogs : List Blog
  searches : List Search
  nextId : Nat
deriving DecidableEq, Repr

/-- Milliseconds in one hour. -/
def hourMs : Nat := 3600 * 1000

/-- Milliseconds in one day. -/
def dayMs : Nat := 24 * hourMs

/-- db.user.findUnique by id. -/
def findUserById (db : DB) (uid : Nat) : Option User :=
  db.users.find? (fun u => u.id == uid)

/-- Special characters of the password policy regex
`[!@#$%^&*(),.?":\x7b\x7d|<>]` in userController.ts. -/
def isPasswordSpecialChar (c : Char) : Bool :=
  c == '!' || c == '@' || c == '#' || c == '$' || c == '%' || c == '^' ||
  c == '&' || c == '*' || c == '(' || c == ')' || c == ',' || c == '.' ||
  c == '?' || c == '"' || c == ':' || c == '\x7b' || c == '\x7d' ||
  c == '|' || c == '<' || c == '>'

/-- The password policy regex of userController.ts: at least 8 characters
(no line terminators, since `.` does not match them), at least one ASCII
letter, one digit and one special character. -/
def passwordOk (s : String) : Bool :=
  decide (s.length ≥ 8) &&
  s.data.all (fun c => !(c == '\n') && !(c == '\r')) &&
  s.data.any (fun c => c.isAlpha) &&
  s.data.any (fun c => c.isDigit) &&
  s.data.any isPasswordSpecialChar

/-- Domain side of the email regex: it must decompose as `B ++ "." ++ C`
with `B`, `C` nonempty, i.e. contain a dot that is neither its first nor
its last character. -/
def domainHasInteriorDot (l : List Char) : Bool :=
  ((l.drop 1).dropLast).any (fun c => c == '.')

/-- The email regex of userController.ts,
`[^\s@]+ @ [^\s@]+ \. [^\s@]+` anchored: no whitespace, exactly one `@`
with a nonempty local part, and a dot strictly inside the domain part. -/
def emailOk (s : String) : Bool :=
  s.data.all (fun c => !c.isWhitespace) &&
  s.data.count '@' == 1 &&
  !(s.data.takeWhile (fun c => !(c == '@'))).isEmpty &&
  domainHasInteriorDot ((s.data.dropWhile (fun c => !(c == '@'))).drop 1)

/-- Payload signed by generateToken in userController.ts: `{ id }`. -/
structure JwtPayload where
  id : Nat
deriving DecidableEq, Repr

/-- Model of a signed jsonwebtoken: payload, issue and expiry times, and
the signature, idealised as the secret the token was signed with. -/
structure Jwt where
  payload : JwtPayload
  iat : Nat
  exp : Nat
  sig : String
deriving DecidableEq, Repr

/-- jwt.sign with an `expiresIn` duration (milliseconds). -/
def jwtSign (payload : JwtPayload) (secret : String) (now expiresInMs : Nat) : Jwt :=
  { payload := payload, iat := now, exp := now + expiresInMs, sig := secret }

/-- generateToken of userController.ts: sign `{ id }` with the process-wide
secret and a 30-day expiry. -/
def generateToken (id : Nat) (secret : String) (now : Nat) : Jwt :=
  jwtSign { id := id } secret now (30 * dayMs)

/-- jwt.verify: succeed with the payload exactly when the signature was
produced with the same secret and the token is not expired. -/
def jwtVerify (t : Jwt) (secret : String) (now : Nat) : Option JwtPayload :=
  if t.sig == secret && decide (now < t.exp) then some t.payload else none

/-- protect of authMiddleware.ts.  The parsed Authorization header is
`authToken` (`none` models a missing or non-Bearer header); on success the
request proceeds with the stored user, modelled as `ok 200 user`. -/
def protect (db : DB) (authToken : Option Jwt) (secret : String) (now : Nat) :
    HResult User × DB :=
  match authToken with
  | none => (HResult.err 401 "Unauthorized, no token", db)
  | some t =>
    match jwtVerify t secret now with
    | none => (HResult.err 401 "Unauthorized", db)
    | some payload =>
      match findUserById db payload.id with
      | none => (HResult.err 401 "Unauthorized", db)
      | some u => (HResult.ok 200 u, db)

/-- Outcome of the awaited nodemailer sendMail call (lib/nodemailer.ts):
the promise either resolves or rejects with an error message. -/
inductive MailResult where
  | success
  | failure (msg : String)
deriving DecidableEq, Repr

/-- resetAccountPassword of userController.ts (POST /user/reset-password/:token).
`hash` is the injected bcrypt.hash.  The success payload is the id of the
user whose password hash was overwritten (the bound user id of the token).
A Prisma update of a missing user throws, surfacing as the catch-all 500. -/
def resetAccountPassword (db : DB) (tokenParam : String) (password : Option String)
    (now : Nat) (hash : String → String) : HResult Nat × DB :=
  match password with
  | none => (HResult.err 400 "Missing new password", db)
  | some pw =>
    if pw == "" then (HResult.err 400 "Missing new password", db)
    else
      match db.passwordResetTokens.find? (fun t => t.token == tokenParam) with
      | none => (HResult.err 400 "Token expired or not valid", db)
      | some tok =>
        if decide (now - tok.createdAt > 24 * hourMs) then
          (HResult.err 400 "Token expired or not valid", db)
        else if !passwordOk pw then
          (HResult.err 422 "Password does not meet security requirments", db)
        else if (findUserById db tok.userId).isNone then
          (HResult.err 500 "Record to update not found", db)
        else
          let db1 : DB := { db with
            users := db.users.map (fun u =>
              if u.id == tok.userId then { u with hashedPassword := some (hash pw) } else u) }
          let db2 : DB := { db1 with
            passwordResetTokens := db1.passwordResetTokens.map (fun t =>
              if t.id == tok.id then { t with resetAt := some now } else t) }
          (HResult.ok 200 tok.userId, db2)

/-- activateAccount of userController.ts (POST /activate/:token).  The
success payload is the id of the user marked verified.  Note that the
source performs no expiry check and never reads or writes `activatedAt`:
the handler does not depend on any clock. -/
def activateAccount (db : DB) (tokenParam : String) : HResult Nat × DB :=
  match db.activateTokens.find? (fun t => t.token == tokenParam) with
  | none => (HResult.err 400 "Token not valid", db)
  | some tok =>
    match db.users.find? (fun u => u.id == tok.userId && u.isEmailVerified) with
    | some _ => (HResult.err 400 "Email is already verified", db)
    | none =>
      if (findUserById db tok.userId).isNone then
        (HResult.err 500 "Record to update not found", db)
      else
        ( HResult.ok 200 tok.userId
        , { db with users := db.users.map (fun u =>
              if u.id == tok.userId then { u with isEmailVerified := true } else u) } )

/-- Rows blocking db.user.delete: the User relations of AccountDeleteToken
and Blog carry no `onDelete` action in the schema, so they default to
ON DELETE RESTRICT — a deletion-token or blog row still referencing the
user makes the delete throw a foreign-key error (Prisma P2003). -/
def userDeleteBlocked (db : DB) (uid : Nat) : Bool :=
  db.deleteTokens.any (fun t => t.userId == uid) || db.blogs.any (fun b => b.authorId == uid)

/-- Cascading effect of db.user.delete per the Prisma schema, in the
unblocked case: rows of the models with `onDelete: Cascade` referencing
the user are removed together with the user. -/
def deleteUserCascade (db : DB) (uid : Nat) : DB :=
  { db with
    users := db.users.filter (fun u => !(u.id == uid))
    , passwordResetTokens := db.passwordResetTokens.filter (fun t => !(t.userId == uid))
    , activateTokens := db.activateTokens.filter (fun t => !(t.userId == uid))
    , follows := db.follows.filter (fun f => !(f.userId == uid) && !(f.followerId == uid))
    , notifications := db.notifications.filter (fun n => !(n.userId == uid))
    , searches := db.searches.filter (fun s => !(s.userId == uid)) }

/-- deleteUser of userController.ts (DELETE /user/:token).  `reqUserId` is
the authenticated requester established by protect.  A Prisma delete of a
missing user throws P2025 and one blocked by an ON DELETE RESTRICT
reference throws P2003; both are caught by the handler's catch-all and
answer 500 with the error message.  Note the request always reaches
db.user.delete holding the matched deletion-token row, which itself
restricts the delete, so the ok branch is unreachable from this handler. -/
def deleteUser (db : DB) (reqUserId : Nat) (tokenParam : String) (now : Nat) :
    HResult Nat × DB :=
  match db.deleteTokens.find? (fun t => t.token == tokenParam) with
  | none => (HResult.err 404 "Token not found", db)
  | some tok =>
    if decide (tok.createdAt < now - 24 * hourMs) then
      (HResult.err 400 "Token is expired", db)
    else if !(tok.userId == reqUserId) then
      (HResult.err 403 "Forbidden", db)
    else if (findUserById db tok.userId).isNone then
      (HResult.err 500 "Record to delete does not exist", db)
    else if userDeleteBlocked db tok.userId then
      (HResult.err 500 "Foreign key constraint failed", db)
    else
      (HResult.ok 200 tok.userId, deleteUserCascade db tok.userId)

/-- followUser of userController.ts (POST /follow/:username).  `reqUserId`
is the authenticated requester; the target is looked up by username. -/
def followUser (db : DB) (reqUserId : Nat) (username : String) : HResult Follow × DB :=
  match db.users.find? (fun u => u.username == some username) with
  | none => (HResult.err 404 "Account not found", db)
  | some user =>
    if user.id == reqUserId then
      (HResult.err 403 "You cannot follow yourself", db)
    else
      match db.follows.find? (fun f => f.userId == user.id && f.followerId == reqUserId) with
      | some _ => (HResult.err 400 "You already follow this account", db)
      | none =>
        let follow : Follow := { id := db.nextId, userId := user.id, followerId := reqUserId }
        ( HResult.ok 200 follow
        , { db with follows := db.follows ++ [follow], nextId := db.nextId + 1 } )

/-- loginUser of userController.ts (POST /login).  `compare` is the
injected bcrypt.compare.  The success payload is the logged-in user id and
the session JWT set on the Authorization header. -/
def loginUser (db : DB) (email password : Option String)
    (compare : String → String → Bool) (secret : String) (now : Nat) :
    HResult (Nat × Jwt) × DB :=
  match email, password with
  | some e, some pw =>
    if e == "" || pw == "" then (HResult.err 400 "Missing required fields", db)
    else if !emailOk e then (HResult.err 422 "Invalid email format", db)
    else
      match db.users.find? (fun u => u.email == e) with
      | none => (HResult.err 400 "Incorrect email or password", db)
      | some user =>
        if !(user.provider == AccountType.DEFAULT) || user.hashedPassword.isNone then
          (HResult.err 400 "Account signed up using a provider", db)
        else if !compare pw (user.hashedPassword.getD "") then
          (HResult.err 400 "Incorrect email or password", db)
        else
          (HResult.ok 200 (user.id, generateToken user.id secret now), db)
  | _, _ => (HResult.err 400 "Missing required fields", db)

/-- registerUser of userController.ts (POST /register).  `hash` is the
injected bcrypt.hash, `tokenString` the random activation token string and
`mail` the outcome of the awaited sendMail call; a rejected mail promise is
caught by the catch-all handler and surfaces as a 500 with its message.
The user and activation-token rows created before the mail send persist
either way. -/
def registerUser (db : DB) (email password : Option String) (hash : String → String)
    (tokenString : String) (mail : MailResult) (secret : String) (now : Nat) :
    HResult (Nat × Jwt) × DB :=
  match email, password with
  | some e, some pw =>
    if e == "" || pw == "" then (HResult.err 400 "Missing required fields", db)
    else if !emailOk e then (HResult.err 422 "Invalid email format", db)
    else if (db.users.find? (fun u => u.email == e)).isSome then
      (HResult.err 400 "User already exists", db)
    else if !passwordOk pw then
      (HResult.err 422 "Password does not meet security requirments", db)
    else
      let newUser : User := { id := db.nextId, email := e, hashedPassword := some (hash pw) }
      let db1 : DB := { db with users := db.users ++ [newUser], nextId := db.nextId + 1 }
      let authToken : ActivateToken :=
        { id := db1.nextId, token := tokenString, userId := newUser.id, createdAt := now }
      let db2 : DB :=
        { db1 with activateTokens := db1.activateTokens ++ [authToken], nextId := db1.nextId + 1 }
      match mail with
      | MailResult.failure m => (HResult.err 500 m, db2)
      | MailResult.success =>
          (HResult.ok 201 (newUser.id, generateToken newUser.id secret now), db2)
  | _, _ => (HResult.err 400 "Missing required fields", db)

/-- resetPasswordRequest of userController.ts (POST /user/reset-password):
issue a password-reset token and email it; a rejected sendMail promise
surfaces as a 500 with its message, the token row persisting. -/
def resetPasswordRequest (db : DB) (email : Option String) (tokenString : String)
    (mail : MailResult) (now : Nat) : HResult Unit × DB :=
  match email with
  | none => (HResult.err 400 "Missing email address", db)
  | some e =>
    if e == "" then (HResult.err 400 "Missing email address", db)
    else if !emailOk e then (HResult.err 422 "Invalid email format", db)
    else
      match db.users.find? (fun u => u.email == e) with
      | none => (HResult.err 404 "Email cannot be found or signed in using a provider", db)
      | some user =>
        if !(user.provider == AccountType.DEFAULT) then
          (HResult.err 404 "Email cannot be found or signed in using a provider", db)
        else
          let tok : PasswordResetToken :=
            { id := db.nextId, token := tokenString, userId := user.id, createdAt := now }
          let db1 : DB :=
            { db with
                passwordResetTokens := db.passwordResetTokens ++ [tok]
                , nextId := db.nextId + 1 }
          match mail with
          | MailResult.failure m => (HResult.err 500 m, db1)
          | MailResult.success => (HResult.ok 200 (), db1)

/-- sendAccountDeleteEmail of userController.ts (DELETE /user): issue an
account-deletion token for the authenticated requester and email it; a
rejected sendMail promise surfaces as a 500 with its message. -/
def sendAccountDeleteEmail (db : DB) (reqUserId : Nat) (tokenString : String)
    (mail : MailResult) (now : Nat) : HResult Unit × DB :=
  let tok : AccountDeleteToken :=
    { id := db.nextId, token := tokenString, userId := reqUserId, createdAt := now }
  let db1 : DB :=
    { db with deleteTokens := db.deleteTokens ++ [tok], nextId := db.nextId + 1 }
  match mail with
  | MailResult.failure m => (HResult.err 500 m, db1)
  | MailResult.success => (HResult.ok 200 (), db1)

/-- db.notification.create of blogController.ts: append a notification row
with the schema defaults (`seen` false, `createdAt` now). -/
def createNotification (db : DB) (blogId userId now : Nat) : DB :=
  { db with
    notifications := db.notifications ++
      [{ id := db.nextId, userId := userId, blogId := blogId, createdAt := now }]
    , nextId := db.nextId + 1 }

/-- publishBlog of blogController.ts (PATCH /blog/:id): find the draft by
its public blogId, guard ownership and non-empty title/content, flip the
draft flag, then create one notification per current follower of the
author. -/
def publishBlog (db : DB) (reqUserId : Nat) (blogIdParam : String) (now : Nat) :
    HResult Blog × DB :=
  match db.blogs.find? (fun b => b.blogId == blogIdParam && b.draft) with
  | none => (HResult.err 404 "Blog not found", db)
  | some blog =>
    if !(blog.authorId == reqUserId) then (HResult.err 403 "Forbidden", db)
    else if blog.title == "" || blog.content == "" then
      (HResult.err 400 "Blog title and content cannot be empty", db)
    else
      let db1 : DB := { db with blogs := db.blogs.map (fun b =>
        if b.blogId == blogIdParam then { b with draft := false } else b) }
      let followers := db1.follows.filter (fun f => f.userId == blog.authorId)
      let db2 := followers.foldl (fun d f => createNotification d blog.id f.followerId now) db1
      (HResult.ok 200 { blog with draft := false }, db2)

/-- Case-insensitive character-list matching for the `contains` /
`mode: "insensitive"` title filter of searchBlogs: does `hay` start with
`needle`? -/
def charsStartWith (hay needle : List Char) : Bool :=
  match hay, needle with
  | _, [] => true
  | [], _ :: _ => false
  | c :: cs, d :: ds => c == d && charsStartWith cs ds

/-- Does `hay` contain `needle` as a contiguous segment? -/
def charsContain (hay needle : List Char) : Bool :=
  match hay with
  | [] => needle.isEmpty
  | _ :: t => charsStartWith hay needle || charsContain t needle

/-- Prisma `title contains query, mode insensitive`. -/
def titleContains (title q : String) : Bool :=
  charsContain title.toLower.data q.toLower.data

/-- Insert a search into a list that is ordered by `createdAt` descending. -/
def insertDesc (s : Search) : List Search → List Search
  | [] => [s]
  | t :: ts => if decide (t.createdAt ≤ s.createdAt) then s :: t :: ts else t :: insertDesc s ts

/-- Prisma `orderBy createdAt desc`, as an insertion sort. -/
def sortByCreatedAtDesc : List Search → List Search
  | [] => []
  | s :: ss => insertDesc s (sortByCreatedAtDesc ss)

/-- First history step of searchBlogs: fetch the requester's recent
searches ordered by `createdAt` descending and, when 5 or more exist,
delete every row past the first four (the source's `for i = 4 ..` loop of
`db.searches.delete` calls). -/
def trimSearches (db : DB) (reqUserId : Nat) : DB :=
  if decide ((sortByCreatedAtDesc (db.searches.filter (fun s => s.userId == reqUserId))).length ≥ 5)
  then
    ((sortByCreatedAtDesc (db.searches.filter (fun s => s.userId == reqUserId))).drop 4).foldl
      (fun d s => { d with searches := d.searches.filter (fun x => !(x.id == s.id)) }) db
  else db

/-- The row `db.searches.create` inserts for a search: the query text
bound to the requester, with a fresh id and `createdAt` now. -/
def newSearchRow (db1 : DB) (reqUserId : Nat) (q : String) (now : Nat) : Search :=
  { id := db1.nextId, userId := reqUserId, content := q, createdAt := now }

/-- Second history step of searchBlogs: look up an existing row of the
same query text for this user, create the new search row, and delete the
older duplicate if one was found. -/
def recordSearch (db1 : DB) (reqUserId : Nat) (q : String) (now : Nat) : DB :=
  let dup := db1.searches.find? (fun s => s.content == q && s.userId == reqUserId)
  let db2 : DB :=
    { db1 with
        searches := db1.searches ++ [newSearchRow db1 reqUserId q now]
        , nextId := db1.nextId + 1 }
  match dup with
  | some d => { db2 with searches := db2.searches.filter (fun x => !(x.id == d.id)) }
  | none => db2

/-- searchBlogs of blogController.ts (GET /search?query=&skip=): return the
published blogs whose title contains the query, then maintain the
requester's recent-search history — trim to the 4 most recent rows when 5
or more exist, then record the query, dropping the older duplicate row of
the same query text if one existed. -/
def searchBlogs (db : DB) (reqUserId : Nat) (query : Option String) (skip now : Nat) :
    HResult (List Blog) × DB :=
  match query with
  | none => (HResult.err 400 "Please provide a search query", db)
  | some q =>
    if q == "" then (HResult.err 400 "Please provide a search query", db)
    else
      let results :=
        ((db.blogs.filter (fun b => !b.draft && titleContains b.title q)).drop skip).take 10
      (HResult.ok 200 results, recordSearch (trimSearches db reqUserId) reqUserId q now)

/-! Concrete fixtures used by counterexamples and witnesses. -/

/-- An unverified DEFAULT-provider user. -/
def w1User : User := { id := 1, email := "a@b.c", hashedPassword := some "OLD" }

/-- A store holding one user and one token of each purpose, all created at
time 0. -/
def w1Db : DB :=
  { users := [w1User]
    , passwordResetTokens := [{ id := 2, token := "rt", userId := 1, createdAt := 0 }]
    , activateTokens := [{ id := 3, token := "at", userId := 1, createdAt := 0 }]
    , deleteTokens := [{ id := 4, token := "dt", userId := 1, createdAt := 0 }]
    , follows := []
    , notifications := []
    , blogs := []
    , searches := []
    , nextId := 5 }

/-- A stand-in bcrypt.hash for concrete evaluations. -/
def w1Hash : String → String := fun s => String.append "hashed:" s

/-- C1, counterexample.  The claim states that validation of every
single-use token, activation tokens included, fails with TokenExpired
whenever `now - createdAt > 24h`.  The source's activateAccount performs no
expiry check whatsoever (it never reads a clock), so the activation token
of `w1Db` — created at time 0 — validates successfully no matter how much
later it is presented: in particular 25 hours after creation, where the
claim demands a TokenExpired failure, it still succeeds with the bound
user id. -/
theorem c1_counterexample_activation_never_expires :
    (activateAccount w1Db "at").1 = HResult.ok 200 1 := by
  decide

/-- C1 (amended): password-reset and deletion tokens are expiry-checked —
validation fails when `now - createdAt > 24h`, and at
`now - createdAt = 23h59m` an unconsumed reset token succeeds, returning
the bound user id (given a policy-compliant new password).  A deletion
token presented by its owner at 23h59m passes the expiry and ownership
checks, but the operation never succeeds: the matched deletion-token row
itself references the user without `onDelete: Cascade`, so db.user.delete
always hits ON DELETE RESTRICT and the handler answers the foreign-key
500 with the store unchanged.  Activation tokens are never expiry-checked
— an activation token validates regardless of age as long as its user is
not already verified. -/
theorem c1_token_validity_window :
    (∀ (db : DB) (tokS pw : String) (now : Nat) (hash : String → String)
      (rtok : PasswordResetToken),
      db.passwordResetTokens.find? (fun t => t.token == tokS) = some rtok →
      pw ≠ "" →
      now - rtok.createdAt > 24 * hourMs →
      resetAccountPassword db tokS (some pw) now hash
        = (HResult.err 400 "Token expired or not valid", db))
    ∧
    (∀ (db : DB) (tokS pw : String) (hash : String → String)
      (rtok : PasswordResetToken) (u : User),
      db.passwordResetTokens.find? (fun t => t.token == tokS) = some rtok →
      rtok.resetAt = none →
      passwordOk pw = true →
      findUserById db rtok.userId = some u →
      (resetAccountPassword db tokS (some pw) (rtok.createdAt + (24 * hourMs - 60000)) hash).1
        = HResult.ok 200 rtok.userId)
    ∧
    (∀ (db : DB) (uid : Nat) (tokS : String) (now : Nat) (dtok : AccountDeleteToken),
      db.deleteTokens.find? (fun t => t.token == tokS) = some dtok →
      now - dtok.createdAt > 24 * hourMs →
      deleteUser db uid tokS now = (HResult.err 400 "Token is expired", db))
    ∧
    (∀ (db : DB) (tokS : String) (dtok : AccountDeleteToken) (u : User),
      db.deleteTokens.find? (fun t => t.token == tokS) = some dtok →
      dtok.deleteAt = none →
      findUserById db dtok.userId = some u →
      deleteUser db dtok.userId tokS (dtok.createdAt + (24 * hourMs - 60000))
        = (HResult.err 500 "Foreign key constraint failed", db))
    ∧
    (∀ (db : DB) (tokS : String) (atok : ActivateToken) (u : User),
      db.activateTokens.find? (fun t => t.token == tokS) = some atok →
      db.users.find? (fun x => x.id == atok.userId && x.isEmailVerified) = none →
      findUserById db atok.userId = some u →
      (activateAccount db tokS).1 = HResult.ok 200 atok.userId) := by
  refine ⟨?_, ?_, ?_, ?_, ?_⟩
  · intro db tokS pw now hash rtok hfind hpw hexp
    simp [resetAccountPassword, hfind, hpw, hexp]
  · intro db tokS pw hash rtok u hfind _ hpo hu
    have hpw : pw ≠ "" := by
      intro h
      subst h
      simp [passwordOk] at hpo
    simp [resetAccountPassword, hfind, hpw, hpo, hu, hourMs]
  · intro db uid tokS now dtok hfind hexp
    have hlt : dtok.createdAt < now - 24 * hourMs := by
      simp only [hourMs] at hexp ⊢
      omega
    simp [deleteUser, hfind, hlt]
  · intro db tokS dtok u hfind _ hu
    have hne : ¬ (dtok.createdAt < dtok.createdAt + (24 * hourMs - 60000) - 24 * hourMs) := by
      simp only [hourMs]
      omega
    have hblocked : userDeleteBlocked db dtok.userId = true := by
      unfold userDeleteBlocked
      rw [Bool.or_eq_true, List.any_eq_true]
      exact Or.inl ⟨dtok, List.mem_of_find?_eq_some hfind, by simp⟩
    simp [deleteUser, hfind, hne, hu, hblocked]
  · intro db tokS atok u hfind hver hu
    simp [activateAccount, hfind, hver, hu]

/-- C1, witness: the amended theorem evaluated on `w1Db` — the reset token
fails 25 hours after creation and succeeds at 23h59m, the deletion token
fails at 25 hours but at 23h59m, though unexpired and owned, runs into the
foreign-key 500 (its own row restricting db.user.delete), and the
activation token validates (with no time constraint at all). -/
theorem c1_token_validity_window_witness :
    resetAccountPassword w1Db "rt" (some "abcd123!") (25 * hourMs) w1Hash
      = (HResult.err 400 "Token expired or not valid", w1Db)
    ∧ (resetAccountPassword w1Db "rt" (some "abcd123!") (0 + (24 * hourMs - 60000)) w1Hash).1
      = HResult.ok 200 1
    ∧ deleteUser w1Db 7 "dt" (25 * hourMs) = (HResult.err 400 "Token is expired", w1Db)
    ∧ deleteUser w1Db 1 "dt" (0 + (24 * hourMs - 60000))
      = (HResult.err 500 "Foreign key constraint failed", w1Db)
    ∧ (activateAccount w1Db "at").1 = HResult.ok 200 1 :=
  ⟨c1_token_validity_window.1 w1Db "rt" "abcd123!" (25 * hourMs) w1Hash
      { id := 2, token := "rt", userId := 1, createdAt := 0 } (by decide) (by decide) (by decide)
  , c1_token_validity_window.2.1 w1Db "rt" "abcd123!" w1Hash
      { id := 2, token := "rt", userId := 1, createdAt := 0 } w1User
      (by decide) (by decide) (by decide) (by decide)
  , c1_token_validity_window.2.2.1 w1Db 7 "dt" (25 * hourMs)
      { id := 4, token := "dt", userId := 1, createdAt := 0 } (by decide) (by decide)
  , c1_token_validity_window.2.2.2.1 w1Db "dt"
      { id := 4, token := "dt", userId := 1, createdAt := 0 } w1User
      (by decide) (by decide) (by decide)
  , c1_token_validity_window.2.2.2.2 w1Db "at"
      { id := 3, token := "at", userId := 1, createdAt := 0 } w1User
      (by decide) (by decide) (by decide)⟩

/-- The store after presenting the reset token of `w1Db` once,
successfully, at time 1000: the token is now consumed (`resetAt` set). -/
def c2Db1 : DB := (resetAccountPassword w1Db "rt" (some "abcd123!") 1000 w1Hash).2

/-- C2: a consumed password-reset token validates — and resets the
password — again.  The first presentation at time 1000 succeeds and stamps
`resetAt := some 1000` on the token; the second presentation of the very
same token at time 2000 succeeds again with the bound user id, because
resetAccountPassword never reads `resetAt`.  This contradicts the claimed
one-way consumption invariant; the schema's `resetAt` field is written but
never checked, so the code, not the claim, is at fault. -/
theorem c2_consumed_reset_token_replays :
    (resetAccountPassword w1Db "rt" (some "abcd123!") 1000 w1Hash).1 = HResult.ok 200 1
    ∧ c2Db1.passwordResetTokens.map (fun t => t.resetAt) = [some 1000]
    ∧ (resetAccountPassword c2Db1 "rt" (some "abcd123!") 2000 w1Hash).1 = HResult.ok 200 1 := by
  refine ⟨?_, ?_, ?_⟩ <;> decide

/-- A stand-in bcrypt.compare accepting exactly the password "pw123!9"
against the stored digest "H". -/
def c3Compare : String → String → Bool := fun pw h => pw == "pw123!9" && h == "H"

/-- A store with a GOOGLE-provider user (no password hash) and a
DEFAULT-provider user with digest "H". -/
def c3Db : DB :=
  { users :=
      [ { id := 1, email := "p@x.y", provider := AccountType.GOOGLE }
      , { id := 2, email := "d@x.y", hashedPassword := some "H" } ]
    , passwordResetTokens := []
    , activateTokens := []
    , deleteTokens := []
    , follows := []
    , notifications := []
    , blogs := []
    , searches := []
    , nextId := 3 }

/-- C3, counterexample.  The claim states that the wrong-password failure
and the provider-account failure carry the same single error kind and are
not distinguishable.  On `c3Db`, logging into the provider-created account
answers 400 "Account signed up using a provider" while a wrong password on
the ordinary account answers 400 "Incorrect email or password": the two
responses differ, so the failure cases are distinguishable by the response
body. -/
theorem c3_counterexample_distinguishable_failures :
    (loginUser c3Db (some "p@x.y") (some "whatever") c3Compare "sec" 0).1
      = HResult.err 400 "Account signed up using a provider"
    ∧ (loginUser c3Db (some "d@x.y") (some "wrong0!") c3Compare "sec" 0).1
      = HResult.err 400 "Incorrect email or password"
    ∧ (HResult.err 400 "Account signed up using a provider" : HResult (Nat × Jwt))
        ≠ HResult.err 400 "Incorrect email or password" := by
  refine ⟨?_, ?_, ?_⟩ <;> decide

/-- C3 (amended): both failures answer HTTP 400 and neither yields a
session, but the messages differ — a provider-created account (non-DEFAULT
provider or no stored hash) answers "Account signed up using a provider",
while a wrong password on an ordinary account answers "Incorrect email or
password"; the two cases are therefore distinguishable by response body,
though not by status code. -/
theorem c3_login_failure_kinds :
    (∀ (db : DB) (e pw : String) (cmp : String → String → Bool) (sec : String)
      (now : Nat) (u : User),
      e ≠ "" → pw ≠ "" → emailOk e = true →
      db.users.find? (fun x => x.email == e) = some u →
      (¬ u.provider = AccountType.DEFAULT ∨ u.hashedPassword = none) →
      loginUser db (some e) (some pw) cmp sec now
        = (HResult.err 400 "Account signed up using a provider", db))
    ∧
    (∀ (db : DB) (e pw : String) (cmp : String → String → Bool) (sec : String)
      (now : Nat) (u : User) (h : String),
      e ≠ "" → pw ≠ "" → emailOk e = true →
      db.users.find? (fun x => x.email == e) = some u →
      u.provider = AccountType.DEFAULT → u.hashedPassword = some h →
      cmp pw h = false →
      loginUser db (some e) (some pw) cmp sec now
        = (HResult.err 400 "Incorrect email or password", db)) := by
  constructor
  · intro db e pw cmp sec now u he hpw hem hfind hprov
    rcases hprov with hprov | hprov
    · simp [loginUser, he, hpw, hem, hfind, hprov]
    · simp [loginUser, he, hpw, hem, hfind, hprov]
  · intro db e pw cmp sec now u h he hpw hem hfind hprov hhash hcmp
    simp [loginUser, he, hpw, hem, hfind, hprov, hhash, hcmp]

/-- C3, witness: the amended theorem evaluated on `c3Db`. -/
theorem c3_login_failure_kinds_witness :
    loginUser c3Db (some "p@x.y") (some "whatever") c3Compare "sec" 0
      = (HResult.err 400 "Account signed up using a provider", c3Db)
    ∧ loginUser c3Db (some "d@x.y") (some "wrong0!") c3Compare "sec" 0
      = (HResult.err 400 "Incorrect email or password", c3Db) :=
  ⟨c3_login_failure_kinds.1 c3Db "p@x.y" "whatever" c3Compare "sec" 0
      { id := 1, email := "p@x.y", provider := AccountType.GOOGLE }
      (by decide) (by decide) (by decide) (by decide) (Or.inl (by decide))
  , c3_login_failure_kinds.2 c3Db "d@x.y" "wrong0!" c3Compare "sec" 0
      { id := 2, email := "d@x.y", hashedPassword := some "H" } "H"
      (by decide) (by decide) (by decide) (by decide) (by decide) (by decide) (by decide)⟩

/-- C4: publishBlog fails with 404 when no draft with the given id exists
(in particular when every blog with that id is already published), with
403 when the requester is not the author, and with 400 when the draft's
title or content is empty; every failure returns the store unchanged, so
no notification is created and no draft flag changes. -/
theorem c4_publish_failure_cases :
    (∀ (db : DB) (uid : Nat) (p : String) (now : Nat),
      db.blogs.find? (fun b => b.blogId == p && b.draft) = none →
      publishBlog db uid p now = (HResult.err 404 "Blog not found", db))
    ∧
    (∀ (db : DB) (uid : Nat) (p : String) (now : Nat),
      (∀ b ∈ db.blogs, b.blogId = p → b.draft = false) →
      publishBlog db uid p now = (HResult.err 404 "Blog not found", db))
    ∧
    (∀ (db : DB) (uid : Nat) (p : String) (now : Nat) (blog : Blog),
      db.blogs.find? (fun b => b.blogId == p && b.draft) = some blog →
      ¬ blog.authorId = uid →
      publishBlog db uid p now = (HResult.err 403 "Forbidden", db))
    ∧
    (∀ (db : DB) (uid : Nat) (p : String) (now : Nat) (blog : Blog),
      db.blogs.find? (fun b => b.blogId == p && b.draft) = some blog →
      blog.authorId = uid →
      (blog.title = "" ∨ blog.content = "") →
      publishBlog db uid p now
        = (HResult.err 400 "Blog title and content cannot be empty", db)) := by
  refine ⟨?_, ?_, ?_, ?_⟩
  · intro db uid p now h
    simp [publishBlog, h]
  · intro db uid p now h
    have hn : db.blogs.find? (fun b => b.blogId == p && b.draft) = none := by
      rw [List.find?_eq_none]
      intro b hb hcontra
      simp only [Bool.and_eq_true, beq_iff_eq] at hcontra
      have := h b hb hcontra.1
      rw [this] at hcontra
      exact Bool.false_ne_true hcontra.2
    simp [publishBlog, hn]
  · intro db uid p now blog hfind hauth
    simp [publishBlog, hfind, hauth]
  · intro db uid p now blog hfind hauth hempty
    rcases hempty with hempty | hempty
    · simp [publishBlog, hfind, hauth, hempty]
    · simp [publishBlog, hfind, hauth, hempty]

/-- A store for the publish fixtures: an already-published blog "pb", a
well-formed draft "d1" and a titleless draft "d2", all by user 1, who is
followed by users 2 and 3. -/
def w4Db : DB :=
  { users := [{ id := 1, email := "a@b.c", username := some "alice" }
      , { id := 2, email := "b@b.c", username := some "bob" }]
    , passwordResetTokens := []
    , activateTokens := []
    , deleteTokens := []
    , follows := [{ id := 11, userId := 1, followerId := 2 }
      , { id := 12, userId := 1, followerId := 3 }]
    , notifications := []
    , blogs :=
      [ { id := 21, blogId := "pb", title := "T", content := "C", draft := false, authorId := 1 }
      , { id := 22, blogId := "d1", title := "T", content := "C", draft := true, authorId := 1 }
      , { id := 23, blogId := "d2", title := "", content := "C", draft := true, authorId := 1 } ]
    , searches := []
    , nextId := 30 }

/-- C4, witness: the four failure cases of `c4_publish_failure_cases`
evaluated on `w4Db` — publishing the already-published "pb", a blog id
with no blog at all, someone else's draft, and a titleless draft. -/
theorem c4_publish_failure_cases_witness :
    publishBlog w4Db 1 "pb" 9 = (HResult.err 404 "Blog not found", w4Db)
    ∧ publishBlog w4Db 1 "nosuch" 9 = (HResult.err 404 "Blog not found", w4Db)
    ∧ publishBlog w4Db 2 "d1" 9 = (HResult.err 403 "Forbidden", w4Db)
    ∧ publishBlog w4Db 1 "d2" 9
        = (HResult.err 400 "Blog title and content cannot be empty", w4Db) :=
  ⟨c4_publish_failure_cases.1 w4Db 1 "pb" 9 (by decide)
  , c4_publish_failure_cases.2.1 w4Db 1 "nosuch" 9 (by decide)
  , c4_publish_failure_cases.2.2.1 w4Db 2 "d1" 9
      { id := 22, blogId := "d1", title := "T", content := "C", draft := true, authorId := 1 }
      (by decide) (by decide)
  , c4_publish_failure_cases.2.2.2 w4Db 1 "d2" 9
      { id := 23, blogId := "d2", title := "", content := "C", draft := true, authorId := 1 }
      (by decide) (by decide) (Or.inl (by decide))⟩

/-- C6: a user can never follow themself (the lookup resolving to the
requester's own id answers 403 and changes nothing), and a second
followUser call for the same ordered (follower, followed) pair fails with
the duplicate-follow conflict error, leaving the state reached by the
first, successful call unchanged. -/
theorem c6_follow_self_and_duplicate :
    (∀ (db : DB) (uid : Nat) (n : String) (u : User),
      db.users.find? (fun x => x.username == some n) = some u →
      u.id = uid →
      followUser db uid n = (HResult.err 403 "You cannot follow yourself", db))
    ∧
    (∀ (db db1 : DB) (uid : Nat) (n : String) (f : Follow),
      followUser db uid n = (HResult.ok 200 f, db1) →
      followUser db1 uid n = (HResult.err 400 "You already follow this account", db1)) := by
  constructor
  · intro db uid n u hfind hid
    simp [followUser, hfind, hid]
  · intro db db1 uid n f h
    cases hfu : db.users.find? (fun x => x.username == some n) with
    | none =>
      simp only [followUser, hfu] at h
      simp at h
    | some u =>
      simp only [followUser, hfu] at h
      by_cases hid : (u.id == uid) = true
      · rw [if_pos hid] at h
        simp at h
      · rw [if_neg hid] at h
        cases hfe : db.follows.find? (fun f => f.userId == u.id && f.followerId == uid) with
        | some f0 =>
          simp only [hfe] at h
          simp at h
        | none =>
          simp only [hfe, Prod.mk.injEq, HResult.ok.injEq] at h
          obtain ⟨⟨-, -⟩, hdb⟩ := h
          have hu1 : db1.users = db.users := by rw [← hdb]
          have hfl : db1.follows
              = db.follows ++ [{ id := db.nextId, userId := u.id, followerId := uid }] := by
            rw [← hdb]
          have hidf : (u.id == uid) = false := by simpa using hid
          have hsome : (db1.follows.find?
              (fun f => f.userId == u.id && f.followerId == uid)).isSome := by
            rw [hfl, List.find?_isSome]
            refine ⟨{ id := db.nextId, userId := u.id, followerId := uid }, ?_, by simp⟩
            exact List.mem_append_right _ (List.mem_singleton_self _)
          obtain ⟨f1, hf1⟩ := Option.isSome_iff_exists.mp hsome
          simp [followUser, hu1, hfu, hidf, hf1]

/-- A store with two users where bob (id 2) does not yet follow alice
(id 1). -/
def w6Db : DB :=
  { users := [{ id := 1, email := "a@b.c", username := some "alice" }
      , { id := 2, email := "b@b.c", username := some "bob" }]
    , passwordResetTokens := []
    , activateTokens := []
    , deleteTokens := []
    , follows := []
    , notifications := []
    , blogs := []
    , searches := []
    , nextId := 40 }

/-- The store after bob successfully follows alice once. -/
def w6Db1 : DB :=
  { w6Db with follows := [{ id := 40, userId := 1, followerId := 2 }], nextId := 41 }

/-- C6, witness: on `w6Db`, alice cannot follow herself, and after bob's
successful follow the repeated call answers the duplicate-follow error
with the state unchanged. -/
theorem c6_follow_self_and_duplicate_witness :
    followUser w6Db 1 "alice" = (HResult.err 403 "You cannot follow yourself", w6Db)
    ∧ followUser w6Db1 2 "alice"
        = (HResult.err 400 "You already follow this account", w6Db1) :=
  ⟨c6_follow_self_and_duplicate.1 w6Db 1 "alice"
      { id := 1, email := "a@b.c", username := some "alice" } (by decide) (by decide)
  , c6_follow_self_and_duplicate.2 w6Db w6Db1 2 "alice"
      { id := 40, userId := 1, followerId := 2 } (by decide)⟩

/-- C7: whenever the awaited sendMail call of a token-issuing operation
fails, the operation as a whole fails — registerUser, resetPasswordRequest
and sendAccountDeleteEmail never produce a success response when the mail
promise rejects, and the surfaced error is the 500 response carrying the
mail failure (the catch-all of the source handler). -/
theorem c7_mail_failure_fails_issuance :
    (∀ (db : DB) (email password : Option String) (hash : String → String)
      (ts sec : String) (now : Nat) (m : String),
      resultIsOk (registerUser db email password hash ts (MailResult.failure m) sec now).1
        = false)
    ∧
    (∀ (db : DB) (email : Option String) (ts : String) (now : Nat) (m : String),
      resultIsOk (resetPasswordRequest db email ts (MailResult.failure m) now).1 = false)
    ∧
    (∀ (db : DB) (uid : Nat) (ts : String) (now : Nat) (m : String),
      (sendAccountDeleteEmail db uid ts (MailResult.failure m) now).1 = HResult.err 500 m)
    ∧
    (∀ (db : DB) (e pw : String) (hash : String → String) (ts sec : String)
      (now : Nat) (m : String),
      e ≠ "" → pw ≠ "" → emailOk e = true →
      db.users.find? (fun u => u.email == e) = none →
      passwordOk pw = true →
      (registerUser db (some e) (some pw) hash ts (MailResult.failure m) sec now).1
        = HResult.err 500 m) := by
  refine ⟨?_, ?_, ?_, ?_⟩
  · intro db email password hash ts sec now m
    cases email with
    | none => simp [registerUser, resultIsOk]
    | some e =>
      cases password with
      | none => simp [registerUser, resultIsOk]
      | some pw =>
        simp only [registerUser]
        split_ifs <;> simp [resultIsOk]
  · intro db email ts now m
    cases email with
    | none => simp [resetPasswordRequest, resultIsOk]
    | some e =>
      by_cases h1 : (e == "") = true
      · simp [resetPasswordRequest, h1, resultIsOk]
      · by_cases h2 : emailOk e = true
        · cases hfu : db.users.find? (fun u => u.email == e) with
          | none => simp [resetPasswordRequest, h1, h2, hfu, resultIsOk]
          | some u =>
            by_cases hp : (u.provider == AccountType.DEFAULT) = true
            · simp [resetPasswordRequest, h1, h2, hfu, hp, resultIsOk]
            · simp [resetPasswordRequest, h1, h2, hfu, hp, resultIsOk]
        · simp [resetPasswordRequest, h1, h2, resultIsOk]
  · intro db uid ts now m
    rfl
  · intro db e pw hash ts sec now m he hpw hem hfind hpo
    simp [registerUser, he, hpw, hem, hfind, hpo]

/-- C7, witness: on `c3Db`, registering a fresh address with a failing
mail transport surfaces the 500 with the mail error, as does requesting
account deletion. -/
theorem c7_mail_failure_fails_issuance_witness :
    (registerUser c3Db (some "new@x.y") (some "abcd123!") w1Hash "tok"
        (MailResult.failure "boom") "sec" 5).1 = HResult.err 500 "boom"
    ∧ (sendAccountDeleteEmail c3Db 2 "tok" (MailResult.failure "boom") 5).1
        = HResult.err 500 "boom" :=
  ⟨c7_mail_failure_fails_issuance.2.2.2 c3Db "new@x.y" "abcd123!" w1Hash "tok" "sec" 5 "boom"
      (by decide) (by decide) (by decide) (by decide) (by decide)
  , c7_mail_failure_fails_issuance.2.2.1 c3Db 2 "tok" 5 "boom"⟩

/-- C8: generateToken signs exactly the payload `{ id := userId }` with a
30-day expiry under the process-wide secret; jwtVerify yields the embedded
payload exactly when the token was signed with the same secret and is not
expired, fails otherwise, and the protect middleware answers 401 whenever
verification fails and only ever proceeds with the user looked up by the
embedded id of a token that verified under the secret. -/
theorem c8_session_token_contract :
    (∀ (uid : Nat) (sec : String) (now : Nat),
      generateToken uid sec now
        = { payload := { id := uid }, iat := now, exp := now + 30 * dayMs, sig := sec })
    ∧
    (∀ (t : Jwt) (sec : String) (now : Nat) (p : JwtPayload),
      jwtVerify t sec now = some p ↔ (t.sig = sec ∧ now < t.exp ∧ p = t.payload))
    ∧
    (∀ (t : Jwt) (sec : String) (now : Nat),
      jwtVerify t sec now = none ↔ (¬ t.sig = sec ∨ t.exp ≤ now))
    ∧
    (∀ (db : DB) (t : Jwt) (sec : String) (now : Nat),
      jwtVerify t sec now = none →
      (protect db (some t) sec now).1 = HResult.err 401 "Unauthorized")
    ∧
    (∀ (db : DB) (t : Jwt) (sec : String) (now : Nat) (u : User),
      (protect db (some t) sec now).1 = HResult.ok 200 u →
      t.sig = sec ∧ now < t.exp ∧ findUserById db t.payload.id = some u) := by
  refine ⟨?_, ?_, ?_, ?_, ?_⟩
  · intro uid sec now
    rfl
  · intro t sec now p
    by_cases h1 : t.sig = sec
    · by_cases h2 : now < t.exp
      · simp [jwtVerify, h1, h2, eq_comm]
      · simp [jwtVerify, h1, h2]
    · simp [jwtVerify, h1]
  · intro t sec now
    by_cases h1 : t.sig = sec
    · by_cases h2 : now < t.exp
      · simp [jwtVerify, h1, h2]
      · simp [jwtVerify, h1, h2]
        omega
    · simp [jwtVerify, h1]
  · intro db t sec now h
    simp [protect, h]
  · intro db t sec now u h
    cases hv : jwtVerify t sec now with
    | none =>
      simp only [protect, hv] at h
      simp at h
    | some p =>
      simp only [protect, hv] at h
      have hps : t.sig = sec ∧ now < t.exp ∧ p = t.payload := by
        unfold jwtVerify at hv
        by_cases h1 : t.sig = sec
        · by_cases h2 : now < t.exp
          · simp [h1, h2] at hv
            exact ⟨h1, h2, hv.symm⟩
          · simp [h1, h2] at hv
        · simp [h1] at hv
      cases hfu : findUserById db p.id with
      | none =>
        simp only [hfu] at h
        simp at h
      | some u0 =>
        simp only [hfu] at h
        simp only [HResult.ok.injEq] at h
        refine ⟨hps.1, hps.2.1, ?_⟩
        rw [← hps.2.2, hfu, h.2]

/-- C8, witness: a token minted for user 1 at time 0 with secret "s"
carries exactly the payload and the 30-day expiry; presented back exactly
at its expiry instant it no longer verifies, so protect answers 401. -/
theorem c8_session_token_contract_witness :
    generateToken 1 "s" 0
      = { payload := { id := 1 }, iat := 0, exp := 0 + 30 * dayMs, sig := "s" }
    ∧ (protect c3Db (some (generateToken 1 "s" 0)) "s" (30 * dayMs)).1
        = HResult.err 401 "Unauthorized" :=
  ⟨c8_session_token_contract.1 1 "s" 0
  , c8_session_token_contract.2.2.2.1 c3Db (generateToken 1 "s" 0) "s" (30 * dayMs)
      (by decide)⟩

/-- C9: a deletion token that is present and unexpired but bound to a
different user than the authenticated requester answers 403 Forbidden and
leaves the store — in particular every account — unchanged. -/
theorem c9_deletion_token_bound_to_requester :
    ∀ (db : DB) (uid : Nat) (tokS : String) (now : Nat) (dtok : AccountDeleteToken),
      db.deleteTokens.find? (fun t => t.token == tokS) = some dtok →
      ¬ dtok.createdAt < now - 24 * hourMs →
      ¬ dtok.userId = uid →
      deleteUser db uid tokS now = (HResult.err 403 "Forbidden", db) := by
  intro db uid tokS now dtok hfind hexp hne
  simp [deleteUser, hfind, hexp, hne]

/-- C9, witness: on `w1Db`, requester 7 presenting user 1's fresh deletion
token is refused with 403 and the store is untouched. -/
theorem c9_deletion_token_bound_to_requester_witness :
    deleteUser w1Db 7 "dt" 1000 = (HResult.err 403 "Forbidden", w1Db) :=
  c9_deletion_token_bound_to_requester w1Db 7 "dt" 1000
    { id := 4, token := "dt", userId := 1, createdAt := 0 }
    (by decide) (by decide) (by decide)

/-! Helper lemmas on the publish fan-out. -/

/-- The notification rows the fan-out loop of publishBlog creates: one per
follower, ids counting up from `startId`, each referencing blog `blogId`
with the schema defaults. -/
def mkNotifs (startId blogId now : Nat) : List Follow → List Notification
  | [] => []
  | f :: fs =>
    { id := startId, userId := f.followerId, blogId := blogId, createdAt := now }
      :: mkNotifs (startId + 1) blogId now fs

theorem foldl_createNotification_notifications (bid now : Nat) (fs : List Follow) (d : DB) :
    (fs.foldl (fun d f => createNotification d bid f.followerId now) d).notifications
      = d.notifications ++ mkNotifs d.nextId bid now fs := by
  induction fs generalizing d with
  | nil => simp [mkNotifs]
  | cons f fs ih =>
    rw [List.foldl_cons, ih]
    simp [createNotification, mkNotifs]

theorem foldl_createNotification_blogs (bid now : Nat) (fs : List Follow) (d : DB) :
    (fs.foldl (fun d f => createNotification d bid f.followerId now) d).blogs = d.blogs := by
  induction fs generalizing d with
  | nil => rfl
  | cons f fs ih =>
    rw [List.foldl_cons, ih]
    rfl

theorem mkNotifs_length (startId bid now : Nat) (fs : List Follow) :
    (mkNotifs startId bid now fs).length = fs.length := by
  induction fs generalizing startId with
  | nil => rfl
  | cons f fs ih => simp [mkNotifs, ih]

theorem mkNotifs_mem (startId bid now : Nat) (fs : List Follow) :
    ∀ nt ∈ mkNotifs startId bid now fs, nt.seen = false ∧ nt.blogId = bid := by
  induction fs generalizing startId with
  | nil => simp [mkNotifs]
  | cons f fs ih =>
    intro nt hnt
    rcases List.mem_cons.mp hnt with h | h
    · subst h
      exact ⟨rfl, rfl⟩
    · exact ih (startId + 1) nt h

theorem mkNotifs_userIds (startId bid now : Nat) (fs : List Follow) :
    (mkNotifs startId bid now fs).map (fun nt => nt.userId)
      = fs.map (fun f => f.followerId) := by
  induction fs generalizing startId with
  | nil => rfl
  | cons f fs ih => simp [mkNotifs, ih]

/-- C5: a successful publish answers with the blog whose draft flag is
cleared, flips that flag in the store, and appends exactly one
notification row per follower of the author at publish time — each unseen
and referencing the published blog's id, in follower order.  followUser
itself never creates a notification, so followers gained after the publish
receive none for that post (snapshot semantics). -/
theorem c5_publish_fanout :
    (∀ (db : DB) (uid : Nat) (p : String) (now : Nat) (blog : Blog),
      db.blogs.find? (fun b => b.blogId == p && b.draft) = some blog →
      blog.authorId = uid →
      ¬ blog.title = "" → ¬ blog.content = "" →
      (publishBlog db uid p now).1 = HResult.ok 200 { blog with draft := false }
      ∧ (publishBlog db uid p now).2.blogs
          = db.blogs.map (fun b => if b.blogId == p then { b with draft := false } else b)
      ∧ (publishBlog db uid p now).2.notifications
          = db.notifications
            ++ mkNotifs db.nextId blog.id now
                (db.follows.filter (fun f => f.userId == blog.authorId))
      ∧ (mkNotifs db.nextId blog.id now
            (db.follows.filter (fun f => f.userId == blog.authorId))).length
          = (db.follows.filter (fun f => f.userId == blog.authorId)).length
      ∧ (∀ nt ∈ mkNotifs db.nextId blog.id now
            (db.follows.filter (fun f => f.userId == blog.authorId)),
          nt.seen = false ∧ nt.blogId = blog.id)
      ∧ (mkNotifs db.nextId blog.id now
            (db.follows.filter (fun f => f.userId == blog.authorId))).map (fun nt => nt.userId)
          = (db.follows.filter (fun f => f.userId == blog.authorId)).map (fun f => f.followerId))
    ∧
    (∀ (db : DB) (uid : Nat) (n : String),
      ((followUser db uid n).2).notifications = db.notifications) := by
  constructor
  · intro db uid p now blog hfind hauth ht hc
    refine ⟨?_, ?_, ?_, mkNotifs_length _ _ _ _, mkNotifs_mem _ _ _ _, mkNotifs_userIds _ _ _ _⟩
    · simp [publishBlog, hfind, hauth, ht, hc]
    · simp [publishBlog, hfind, hauth, ht, hc, foldl_createNotification_blogs]
    · simp [publishBlog, hfind, hauth, ht, hc, foldl_createNotification_notifications]
  · intro db uid n
    cases hfu : db.users.find? (fun x => x.username == some n) with
    | none => simp [followUser, hfu]
    | some u =>
      by_cases hid : (u.id == uid) = true
      · simp [followUser, hfu, hid]
      · rw [Bool.not_eq_true] at hid
        cases hfe : db.follows.find? (fun f => f.userId == u.id && f.followerId == uid) with
        | some f0 => simp [followUser, hfu, hid, hfe]
        | none => simp [followUser, hfu, hid, hfe]

/-- C5, witness: publishing draft "d1" of `w4Db` (author 1, two followers)
appends exactly the two fan-out notifications, and a follow performed
afterwards creates none. -/
theorem c5_publish_fanout_witness :
    (publishBlog w4Db 1 "d1" 9).2.notifications
      = w4Db.notifications
        ++ mkNotifs w4Db.nextId
            ({ id := 22, blogId := "d1", title := "T", content := "C"
              , draft := true, authorId := 1 } : Blog).id 9
            (w4Db.follows.filter (fun f => f.userId ==
              ({ id := 22, blogId := "d1", title := "T", content := "C"
                , draft := true, authorId := 1 } : Blog).authorId))
    ∧ ((followUser w4Db 3 "alice").2).notifications = w4Db.notifications :=
  ⟨(c5_publish_fanout.1 w4Db 1 "d1" 9
      { id := 22, blogId := "d1", title := "T", content := "C", draft := true, authorId := 1 }
      (by decide) (by decide) (by decide) (by decide)).2.2.1
  , c5_publish_fanout.2 w4Db 3 "alice"⟩

/-! Helper lemmas on the search-history maintenance. -/

theorem insertDesc_perm (s : Search) (l : List Search) : (insertDesc s l).Perm (s :: l) := by
  induction l with
  | nil => simp [insertDesc]
  | cons t ts ih =>
    simp only [insertDesc]
    split
    · exact List.Perm.refl _
    · exact (ih.cons t).trans (List.Perm.swap s t ts)

theorem sortByCreatedAtDesc_perm (l : List Search) : (sortByCreatedAtDesc l).Perm l := by
  induction l with
  | nil => simp [sortByCreatedAtDesc]
  | cons s ss ih =>
    exact (insertDesc_perm s (sortByCreatedAtDesc ss)).trans (ih.cons s)

theorem foldl_delSearch_searches (L : List Search) (d : DB) :
    (L.foldl (fun d s =>
        { d with searches := d.searches.filter (fun x => !(x.id == s.id)) }) d).searches
      = d.searches.filter (fun x => L.all (fun s => !(x.id == s.id))) := by
  induction L generalizing d with
  | nil => simp
  | cons s L ih =>
    rw [List.foldl_cons, ih]
    show (d.searches.filter (fun x => !(x.id == s.id))).filter
        (fun x => L.all (fun s => !(x.id == s.id)))
      = d.searches.filter (fun x => (s :: L).all (fun s => !(x.id == s.id)))
    rw [List.filter_filter]
    apply List.filter_congr
    intro x _
    simp [Bool.and_comm]

theorem foldl_delSearch_nextId (L : List Search) (d : DB) :
    (L.foldl (fun d s =>
        { d with searches := d.searches.filter (fun x => !(x.id == s.id)) }) d).nextId
      = d.nextId := by
  induction L generalizing d with
  | nil => rfl
  | cons s L ih =>
    rw [List.foldl_cons, ih]

theorem trimSearches_nextId (db : DB) (uid : Nat) :
    (trimSearches db uid).nextId = db.nextId := by
  unfold trimSearches
  split
  · exact foldl_delSearch_nextId _ _
  · rfl

theorem trimSearches_searches_sublist (db : DB) (uid : Nat) :
    (trimSearches db uid).searches.Sublist db.searches := by
  unfold trimSearches
  split
  · rw [foldl_delSearch_searches]
    exact List.filter_sublist _
  · exact List.Sublist.refl _

theorem trimSearches_user_mem_take (db : DB) (uid : Nat) :
    ∀ s ∈ (trimSearches db uid).searches.filter (fun x => x.userId == uid),
      s ∈ (sortByCreatedAtDesc (db.searches.filter (fun x => x.userId == uid))).take 4 := by
  intro s hs
  unfold trimSearches at hs
  by_cases hc :
      (sortByCreatedAtDesc (db.searches.filter (fun x => x.userId == uid))).length ≥ 5
  · rw [if_pos (decide_eq_true hc), foldl_delSearch_searches] at hs
    have hs1 := List.mem_filter.mp hs
    have hs2 := List.mem_filter.mp hs1.1
    have hmemU : s ∈ db.searches.filter (fun x => x.userId == uid) :=
      List.mem_filter.mpr ⟨hs2.1, hs1.2⟩
    have hmemR : s ∈ sortByCreatedAtDesc (db.searches.filter (fun x => x.userId == uid)) :=
      ((sortByCreatedAtDesc_perm _).mem_iff).mpr hmemU
    rw [← List.take_append_drop 4
        (sortByCreatedAtDesc (db.searches.filter (fun x => x.userId == uid)))] at hmemR
    rcases List.mem_append.mp hmemR with h | h
    · exact h
    · exfalso
      have hall := List.all_eq_true.mp hs2.2 s h
      simp at hall
  · rw [if_neg (by simpa using hc)] at hs
    have hmemR : s ∈ sortByCreatedAtDesc (db.searches.filter (fun x => x.userId == uid)) :=
      ((sortByCreatedAtDesc_perm _).mem_iff).mpr hs
    rwa [List.take_of_length_le (by omega)]

theorem trimSearches_user_length_le (db : DB) (uid : Nat)
    (hids : (db.searches.map (fun s => s.id)).Nodup) :
    ((trimSearches db uid).searches.filter (fun x => x.userId == uid)).length ≤ 4 := by
  have hS : db.searches.Nodup := List.Nodup.of_map _ hids
  have hnd : ((trimSearches db uid).searches.filter (fun x => x.userId == uid)).Nodup :=
    (((trimSearches_searches_sublist db uid).filter _).trans
      (List.filter_sublist _)).nodup hS
  have hsub : (trimSearches db uid).searches.filter (fun x => x.userId == uid)
      ⊆ (sortByCreatedAtDesc (db.searches.filter (fun x => x.userId == uid))).take 4 :=
    fun s hs => trimSearches_user_mem_take db uid s hs
  have hle := (hnd.subperm hsub).length_le
  have hlen : ((sortByCreatedAtDesc
      (db.searches.filter (fun x => x.userId == uid))).take 4).length ≤ 4 := by
    exact List.length_take_le 4 _
  omega

/-- C10: after a completed (successful) search, the requester holds at
most 5 recent-search rows; every surviving old row is among the 4 most
recent rows the user had before the call (the trim step deletes all
others before the new search is recorded); and if the user's search texts
were pairwise distinct before, they remain so — the older duplicate of a
repeated query is removed.  The id hypotheses state that the
autoincrement ids of stored rows are distinct and below the fresh-id
counter. -/
theorem c10_search_history_invariant :
    ∀ (db : DB) (uid : Nat) (q : String) (skip now : Nat),
      q ≠ "" →
      (db.searches.map (fun s => s.id)).Nodup →
      (∀ s ∈ db.searches, s.id < db.nextId) →
      (((searchBlogs db uid (some q) skip now).2).searches.filter
          (fun x => x.userId == uid)).length ≤ 5
      ∧ (((db.searches.filter (fun x => x.userId == uid)).map (fun s => s.content)).Nodup →
          ((((searchBlogs db uid (some q) skip now).2).searches.filter
              (fun x => x.userId == uid)).map (fun s => s.content)).Nodup)
      ∧ (∀ s ∈ ((searchBlogs db uid (some q) skip now).2).searches.filter
            (fun x => x.userId == uid),
          s.id = db.nextId
          ∨ s ∈ (sortByCreatedAtDesc
              (db.searches.filter (fun x => x.userId == uid))).take 4) := by
  intro db uid q skip now hq hids hfresh
  have hqb : (q == "") = false := by simpa using hq
  have hdb3 : (searchBlogs db uid (some q) skip now).2
      = recordSearch (trimSearches db uid) uid q now := by
    simp [searchBlogs, hqb]
  rw [hdb3]
  have hnext := trimSearches_nextId db uid
  have hsubS := trimSearches_searches_sublist db uid
  have hsubU : ((trimSearches db uid).searches.filter (fun x => x.userId == uid)).Sublist
      (db.searches.filter (fun x => x.userId == uid)) := hsubS.filter _
  have hlen4 := trimSearches_user_length_le db uid hids
  have hmem4 := trimSearches_user_mem_take db uid
  cases hdup : (trimSearches db uid).searches.find?
      (fun s => s.content == q && s.userId == uid) with
  | none =>
    have hrec : (recordSearch (trimSearches db uid) uid q now).searches
        = (trimSearches db uid).searches
          ++ [newSearchRow (trimSearches db uid) uid q now] := by
      simp [recordSearch, hdup]
    have hufil : ((trimSearches db uid).searches
          ++ [newSearchRow (trimSearches db uid) uid q now]).filter
            (fun x => x.userId == uid)
        = ((trimSearches db uid).searches.filter (fun x => x.userId == uid))
          ++ [newSearchRow (trimSearches db uid) uid q now] := by
      rw [List.filter_append]
      simp [newSearchRow]
    refine ⟨?_, ?_, ?_⟩
    · rw [hrec, hufil]
      simp only [List.length_append, List.length_singleton]
      omega
    · intro hC
      have hU1C : (((trimSearches db uid).searches.filter
          (fun x => x.userId == uid)).map (fun s => s.content)).Nodup :=
        (hsubU.map _).nodup hC
      rw [hrec, hufil, List.map_append, List.nodup_append]
      refine ⟨hU1C, by simp, ?_⟩
      intro a ha hb
      simp only [List.map_cons, List.map_nil, List.mem_singleton, newSearchRow] at hb
      subst hb
      obtain ⟨x, hxU1, hxq⟩ := List.mem_map.mp ha
      have hx1 := List.mem_filter.mp hxU1
      have hno := List.find?_eq_none.mp hdup x hx1.1
      simp [hx1.2] at hno
      exact hno hxq
    · intro s hs
      rw [hrec, hufil] at hs
      rcases List.mem_append.mp hs with h | h
      · exact Or.inr (hmem4 s h)
      · left
        rw [List.mem_singleton] at h
        subst h
        exact hnext
  | some d =>
    have hd : d.content = q ∧ d.userId = uid := by
      simpa using List.find?_some hdup
    have hdmem : d ∈ (trimSearches db uid).searches := List.mem_of_find?_eq_some hdup
    have hdS : d ∈ db.searches := hsubS.subset hdmem
    have hdid : d.id < db.nextId := hfresh d hdS
    have hNd : ((newSearchRow (trimSearches db uid) uid q now).id == d.id) = false := by
      simp only [newSearchRow, hnext, beq_eq_false_iff_ne, ne_eq]
      omega
    have hrec : (recordSearch (trimSearches db uid) uid q now).searches
        = ((trimSearches db uid).searches
            ++ [newSearchRow (trimSearches db uid) uid q now]).filter
              (fun x => !(x.id == d.id)) := by
      simp [recordSearch, hdup]
    have hufil : (((trimSearches db uid).searches
          ++ [newSearchRow (trimSearches db uid) uid q now]).filter
            (fun x => !(x.id == d.id))).filter (fun x => x.userId == uid)
        = (((trimSearches db uid).searches.filter (fun x => x.userId == uid)).filter
            (fun x => !(x.id == d.id)))
          ++ [newSearchRow (trimSearches db uid) uid q now] := by
      rw [List.filter_append]
      have h1 : ([newSearchRow (trimSearches db uid) uid q now] : List Search).filter
          (fun x => !(x.id == d.id)) = [newSearchRow (trimSearches db uid) uid q now] := by
        simp [hNd]
      rw [h1, List.filter_append]
      have h2 : ([newSearchRow (trimSearches db uid) uid q now] : List Search).filter
          (fun x => x.userId == uid) = [newSearchRow (trimSearches db uid) uid q now] := by
        simp [newSearchRow]
      rw [h2]
      congr 1
      rw [List.filter_filter, List.filter_filter]
      apply List.filter_congr
      intro x _
      exact Bool.and_comm _ _
    refine ⟨?_, ?_, ?_⟩
    · rw [hrec, hufil]
      simp only [List.length_append, List.length_singleton]
      have := List.length_filter_le (fun x => !(x.id == d.id))
        ((trimSearches db uid).searches.filter (fun x => x.userId == uid))
      omega
    · intro hC
      have hU1C : (((trimSearches db uid).searches.filter
          (fun x => x.userId == uid)).map (fun s => s.content)).Nodup :=
        (hsubU.map _).nodup hC
      have hU1pC : ((((trimSearches db uid).searches.filter
          (fun x => x.userId == uid)).filter (fun x => !(x.id == d.id))).map
            (fun s => s.content)).Nodup :=
        ((List.filter_sublist _).map _).nodup hU1C
      rw [hrec, hufil, List.map_append, List.nodup_append]
      refine ⟨hU1pC, by simp, ?_⟩
      intro a ha hb
      simp only [List.map_cons, List.map_nil, List.mem_singleton, newSearchRow] at hb
      subst hb
      obtain ⟨x, hxU1p, hxq⟩ := List.mem_map.mp ha
      have hx1 := List.mem_filter.mp hxU1p
      have hxid : (x.id == d.id) = false := by
        have h3 := hx1.2
        simpa using h3
      have hdU1 : d ∈ (trimSearches db uid).searches.filter (fun x => x.userId == uid) :=
        List.mem_filter.mpr ⟨hdmem, by simp [hd.2]⟩
      have hxd : x = d :=
        List.inj_on_of_nodup_map hU1C hx1.1 hdU1 (by rw [hxq, hd.1])
      rw [hxd] at hxid
      simp at hxid
    · intro s hs
      rw [hrec, hufil] at hs
      rcases List.mem_append.mp hs with h | h
      · exact Or.inr (hmem4 s (List.mem_filter.mp h).1)
      · left
        rw [List.mem_singleton] at h
        subst h
        exact hnext

/-- A store whose user 1 already holds six recent searches, "q0" … "q5",
with distinct ids below the counter. -/
def w10Db : DB :=
  { users := [{ id := 1, email := "a@b.c" }]
    , passwordResetTokens := []
    , activateTokens := []
    , deleteTokens := []
    , follows := []
    , notifications := []
    , blogs := []
    , searches :=
      [ { id := 20, userId := 1, content := "q0", createdAt := 10 }
      , { id := 21, userId := 1, content := "q1", createdAt := 11 }
      , { id := 22, userId := 1, content := "q2", createdAt := 12 }
      , { id := 23, userId := 1, content := "q3", createdAt := 13 }
      , { id := 24, userId := 1, content := "q4", createdAt := 14 }
      , { id := 25, userId := 1, content := "q5", createdAt := 15 } ]
    , nextId := 30 }

/-- C10, witness: searching "q3" again on `w10Db` (six stored searches,
one of them already "q3") leaves user 1 with at most five rows, still
duplicate-free. -/
theorem c10_search_history_invariant_witness :
    (((searchBlogs w10Db 1 (some "q3") 0 99).2).searches.filter
        (fun x => x.userId == 1)).length ≤ 5
    ∧ ((((searchBlogs w10Db 1 (some "q3") 0 99).2).searches.filter
        (fun x => x.userId == 1)).map (fun s => s.content)).Nodup :=
  ⟨(c10_search_history_invariant w10Db 1 "q3" 0 99 (by decide) (by decide) (by decide)).1
  , (c10_search_history_invariant w10Db 1 "q3" 0 99 (by decide) (by decide)
      (by decide)).2.1 (by decide)⟩

end PostRoom
